import Mathlib

/-!
Verification of the python-pptx excerpt: the `BaseShape` geometry facade
(`pptx/shapes/shape.py`), the font-file discovery utility
(`pptx.text.fonts`, known here through its test suite), and the XML
simple-type conversion helpers (`pptx.oxml.simpletypes`, known here
through its test suite).

The shallow embedding models Python exceptions with `Except`, Python
dictionaries with association lists whose lookup returns the most
recently inserted binding for a key, and the filesystem / platform state
with an explicit environment record.
-/

namespace Pptx

/-- Python exception kinds raised by the modelled code paths. -/
inductive PyErr
  | typeError
  | valueError
  | keyError
  | osError
  deriving DecidableEq

/-- Lookup in a Python-dict modelled as an insertion-ordered association
list: the value of the latest binding for the key, as repeated
`d[k] = v` assignments overwrite earlier ones. -/
def dictLookup {α β : Type} [DecidableEq α] (ps : List (α × β)) (k : α) : Option β :=
  (ps.reverse.find? (fun p => decide (p.1 = k))).map Prod.snd

/-- Modelled from the spec: the name table of a font file, "a font-file
internal structure mapping naming IDs (e.g., family name) to string
values"; `pptx/text/fonts.py` is not among the provided sources. Only
the family-name entry is needed by the claims. -/
structure _NameTable where
  family_name : String
  deriving DecidableEq

/-- Modelled from the spec: a parsed font file; its `_tables` member is
the parsed table directory, a dict from table tags (such as `name`) to
parsed table objects. Only name tables are modelled as values. -/
structure _Font where
  _tables : List (String × _NameTable)

/-- Modelled from the spec: `_Font.family_name` reads the family-name
string out of the `name` table of the parsed table directory; a missing
`name` table is a `KeyError`, as for any Python dict subscript. -/
def _Font.family_name (f : _Font) : Except PyErr String :=
  match dictLookup f._tables "name" with
  | some nt => Except.ok nt.family_name
  | none => Except.error PyErr.keyError

/-- Modelled from the spec: the (family name, bold, italic) metadata read
from a font file opened by `_Font.open`. -/
structure FontInfo where
  family_name : String
  is_bold : Bool
  is_italic : Bool
  deriving DecidableEq

/-- Modelled from the spec: the ambient state the font-file locator
consults — `sys.platform`, the `HOME` environment variable, the result
of `FontFiles._windows_font_directories` (whose contents the spec leaves
unspecified), the candidate font files found under a directory, and the
metadata of the font stored at a path. -/
structure FontEnv where
  platform : String
  home : Option String
  windows_font_directories : List String
  files_in : String → List String
  font_at : String → FontInfo

/-- The key of the installed-fonts mapping: (family name, bold, italic). -/
abbrev FontKey := String × Bool × Bool

/-- Modelled from the spec: POSIX `os.path.join` on one extra component
— an absolute second component replaces the first, otherwise the two are
joined with a single `/` separator. -/
def ospath_join (a b : String) : String :=
  if b.data.head? = some '/' then b
  else if a.data.getLast? = some '/' then a ++ b
  else a ++ "/" ++ b

namespace FontFiles

/-- Modelled from the spec: `FontFiles._os_x_font_directories` lists the
three fixed OS X font folders followed, when `HOME` is set, by `HOME`
joined with `Library/Fonts` and `HOME` joined with `.fonts`. -/
def _os_x_font_directories (env : FontEnv) : List String :=
  ["/Library/Fonts", "/Network/Library/Fonts", "/System/Library/Fonts"] ++
    (match env.home with
     | some home => [ospath_join home "Library/Fonts", ospath_join home ".fonts"]
     | none => [])

/-- Modelled from the spec: `FontFiles._windows_font_directories`; the
spec does not specify its contents, so the environment provides them. -/
def _windows_font_directories (env : FontEnv) : List String :=
  env.windows_font_directories

/-- Modelled from the spec: `FontFiles._font_directories` is
platform-conditional — the OS X list on `darwin`, the Windows list on
`win32`, and an `OSError` on any other platform. -/
def _font_directories (env : FontEnv) : Except PyErr (List String) :=
  if env.platform = "darwin" then Except.ok (_os_x_font_directories env)
  else if env.platform = "win32" then Except.ok (_windows_font_directories env)
  else Except.error PyErr.osError

/-- Modelled from the spec: the generator loop of
`FontFiles._iter_font_files_in` — for each candidate font file, open it
with `_Font.open` (`env.font_at` gives the opened font's metadata) and
yield `((family_name, is_bold, is_italic), path)`. -/
def _iter_loop (env : FontEnv) : List String → List (FontKey × String)
  | [] => []
  | path :: rest =>
      (((env.font_at path).family_name, (env.font_at path).is_bold,
        (env.font_at path).is_italic), path) :: _iter_loop env rest

/-- Modelled from the spec: `FontFiles._iter_font_files_in` runs the
generator loop over the candidate font files found under `directory`. -/
def _iter_font_files_in (env : FontEnv) (directory : String) : List (FontKey × String) :=
  _iter_loop env (env.files_in directory)

/-- Modelled from the spec: `FontFiles._installed_fonts` builds one dict
by iterating `_iter_font_files_in d` for each `d` of
`_font_directories()`, in order, inserting every yielded pair. -/
def _installed_fonts (env : FontEnv) : Except PyErr (List (FontKey × String)) := do
  let dirs ← _font_directories env
  return dirs.foldl (fun fonts d => fonts ++ _iter_font_files_in env d) []

/-- Modelled from the spec: `FontFiles.find` subscripts the
installed-fonts dict at `(family_name, is_bold, is_italic)`; a missing
key is a `KeyError`. -/
def find (env : FontEnv) (family_name : String) (is_bold is_italic : Bool) :
    Except PyErr String :=
  match _installed_fonts env with
  | Except.error e => Except.error e
  | Except.ok fonts =>
    match dictLookup fonts (family_name, is_bold, is_italic) with
    | some path => Except.ok path
    | none => Except.error PyErr.keyError

end FontFiles

/-- File-handling events observable while `_Font.open` is used as a
context manager. -/
inductive FileEvent
  | fopen (path : String) (mode : String)
  | fclose
  | yield_font
  deriving DecidableEq

/-- Modelled from the spec: `_Stream.open(path)` opens the underlying
file with the builtin `open(path, "rb")`. -/
def _Stream.open_events (path : String) : List FileEvent :=
  [FileEvent.fopen path "rb"]

/-- Modelled from the spec: `_Stream.close()` closes the underlying file. -/
def _Stream.close_events : List FileEvent :=
  [FileEvent.fclose]

/-- Modelled from the spec: the event trace of `with _Font.open(path) as f`
— a `_Stream` is opened on `path`, a `_Font` is yielded to the body, and
the stream is closed when the context exits. -/
def _Font.open_events (path : String) : List FileEvent :=
  _Stream.open_events path ++ [FileEvent.yield_font] ++ _Stream.close_events

/-- Modelled from the spec: the shape's backing XML element (a
`CT_Shape` lxml custom element) as its attribute store; geometry
attribute values are EMU integers. -/
structure CT_Shape where
  attrs : String → Int

/-- The element's `x` property: the value of its `x` attribute. -/
def CT_Shape.x (e : CT_Shape) : Int := e.attrs "x"

/-- The element's `y` property: the value of its `y` attribute. -/
def CT_Shape.y (e : CT_Shape) : Int := e.attrs "y"

/-- The element's `cx` property: the value of its `cx` attribute. -/
def CT_Shape.cx (e : CT_Shape) : Int := e.attrs "cx"

/-- The element's `cy` property: the value of its `cy` attribute. -/
def CT_Shape.cy (e : CT_Shape) : Int := e.attrs "cy"

/-- Assignment to the element's `x` property stores into the `x` attribute. -/
def CT_Shape.set_x (e : CT_Shape) (value : Int) : CT_Shape :=
  ⟨Function.update e.attrs "x" value⟩

/-- Assignment to the element's `y` property stores into the `y` attribute. -/
def CT_Shape.set_y (e : CT_Shape) (value : Int) : CT_Shape :=
  ⟨Function.update e.attrs "y" value⟩

/-- Assignment to the element's `cx` property stores into the `cx` attribute. -/
def CT_Shape.set_cx (e : CT_Shape) (value : Int) : CT_Shape :=
  ⟨Function.update e.attrs "cx" value⟩

/-- Assignment to the element's `cy` property stores into the `cy` attribute. -/
def CT_Shape.set_cy (e : CT_Shape) (value : Int) : CT_Shape :=
  ⟨Function.update e.attrs "cy" value⟩

/-- `BaseShape` from `pptx/shapes/shape.py`: a facade over its backing
shape element. -/
structure BaseShape where
  _element : CT_Shape

/-- `BaseShape.height` getter: `return self._element.cy`. -/
def BaseShape.height (s : BaseShape) : Int := s._element.cy

/-- `BaseShape.height` setter: `self._element.cy = value`. -/
def BaseShape.set_height (s : BaseShape) (value : Int) : BaseShape :=
  { s with _element := s._element.set_cy value }

/-- `BaseShape.left` getter: `return self._element.x`. -/
def BaseShape.left (s : BaseShape) : Int := s._element.x

/-- `BaseShape.left` setter: `self._element.x = value`. -/
def BaseShape.set_left (s : BaseShape) (value : Int) : BaseShape :=
  { s with _element := s._element.set_x value }

/-- `BaseShape.top` getter: `return self._element.y`. -/
def BaseShape.top (s : BaseShape) : Int := s._element.y

/-- `BaseShape.top` setter: `self._element.y = value`. -/
def BaseShape.set_top (s : BaseShape) (value : Int) : BaseShape :=
  { s with _element := s._element.set_y value }

/-- `BaseShape.width` getter: `return self._element.cx`. -/
def BaseShape.width (s : BaseShape) : Int := s._element.cx

/-- `BaseShape.width` setter: `self._element.cx = value`. -/
def BaseShape.set_width (s : BaseShape) (value : Int) : BaseShape :=
  { s with _element := s._element.set_cx value }

/-- A Python value as far as the simple-type validators inspect it: the
runtime type tag and, where representable, the payload. A float carries
only its literal text, since `validate_int` never reads it. -/
inductive PyValue
  | int (value : Int)
  | str (value : String)
  | float (text : String)
  | none

/-- Modelled from the spec: `BaseSimpleType.validate_int` returns
normally on an `int` and raises `TypeError` on any other type;
`pptx/oxml/simpletypes.py` is not among the provided sources. -/
def BaseSimpleType.validate_int (value : PyValue) : Except PyErr Unit :=
  match value with
  | PyValue.int _ => Except.ok ()
  | _ => Except.error PyErr.typeError

/-- The character for the decimal digit `d`. -/
def charOfDigit (d : Nat) : Char := Char.ofNat (d + 48)

/-- The digit value of a decimal digit character. -/
def digitToVal (c : Char) : Nat := c.toNat - 48

/-- Little-endian decimal digits of `n`; the first argument is
structural-recursion fuel, sufficient whenever `n ≤ fuel`. -/
def natDigitsRevGo : Nat → Nat → List Nat
  | 0, n => [n]
  | fuel + 1, n => if n < 10 then [n] else (n % 10) :: natDigitsRevGo fuel (n / 10)

/-- Little-endian decimal digits of `n` (`[0]` for `0`). -/
def natDigitsRev (n : Nat) : List Nat := natDigitsRevGo n n

/-- The canonical decimal digit string of a natural number. -/
def natToDecimal (n : Nat) : List Char := (natDigitsRev n).reverse.map charOfDigit

/-- The value of a big-endian decimal digit list. -/
def decimalVal (ds : List Nat) : Nat := ds.foldl (fun a d => 10 * a + d) 0

/-- Modelled from the spec: `BaseIntType.convert_to_xml` is Python
`str(value)` — the canonical decimal string, with a leading `-` for
negative values. -/
def BaseIntType.convert_to_xml (value : Int) : String :=
  if value < 0 then String.mk ('-' :: natToDecimal value.natAbs)
  else String.mk (natToDecimal value.natAbs)

/-- The numeric value of an unsigned decimal digit-character list. -/
def parseDigitsVal (cs : List Char) : Nat := cs.foldl (fun a c => 10 * a + digitToVal c) 0

/-- Parse a non-empty all-digit character list; anything else is a
`ValueError`, as for Python `int(...)`. Leading zeros are accepted. -/
def parseUnsigned (cs : List Char) : Except PyErr Nat :=
  if cs = [] then Except.error PyErr.valueError
  else if cs.all Char.isDigit then Except.ok (parseDigitsVal cs) else Except.error PyErr.valueError

/-- Modelled from the spec: `BaseIntType.convert_from_xml` is Python
`int(str_value)` — an optional sign followed by one or more decimal
digits, leading zeros permitted; any other string raises `ValueError`. -/
def BaseIntType.convert_from_xml : String → Except PyErr Int
  | ⟨[]⟩ => Except.error PyErr.valueError
  | ⟨c :: rest⟩ =>
    if c = '-' then (parseUnsigned rest).map (fun k : Nat => -(k : Int))
    else if c = '+' then (parseUnsigned rest).map (fun k : Nat => (k : Int))
    else (parseUnsigned (c :: rest)).map (fun k : Nat => (k : Int))

/-- A concrete shape whose element carries some attribute values, used to
instantiate the geometry theorems. -/
def sampleShape : BaseShape :=
  ⟨⟨fun a => if a = "x" then 1 else if a = "y" then 2
             else if a = "cx" then 3 else if a = "cy" then 4 else 0⟩⟩

/-- A concrete darwin-platform font environment mirroring the test
fixtures: `HOME` is `/Users/fbar`, and the OS X font folders hold three
fonts of the `Foobar` and `Barfoo` families. -/
def sampleEnvDarwin : FontEnv where
  platform := "darwin"
  home := some "/Users/fbar"
  windows_font_directories := []
  files_in := fun d =>
    if d = "/Library/Fonts" then
      ["/Library/Fonts/foobar.ttf", "/Library/Fonts/foobarb.ttf"]
    else if d = "/Network/Library/Fonts" then ["/Network/Library/Fonts/barfooi.ttf"]
    else []
  font_at := fun p =>
    if p = "/Library/Fonts/foobar.ttf" then ⟨"Foobar", false, false⟩
    else if p = "/Library/Fonts/foobarb.ttf" then ⟨"Foobar", true, false⟩
    else ⟨"Barfoo", false, true⟩

/-- A concrete win32-platform font environment. -/
def sampleEnvWin : FontEnv where
  platform := "win32"
  home := none
  windows_font_directories := ["c", "d"]
  files_in := fun _ => []
  font_at := fun _ => ⟨"", false, false⟩

/-- A concrete parsed font whose table directory holds a name table. -/
def sampleFont : _Font := ⟨[("name", ⟨"Foobar"⟩)]⟩

theorem foldl_append_eq_flatten {α β : Type} (g : α → List β) (l : List α) (acc : List β) :
    l.foldl (fun a d => a ++ g d) acc = acc ++ (l.map g).flatten := by
  induction l generalizing acc with
  | nil => simp
  | cons x xs ih => simp [ih, List.append_assoc]

theorem iter_loop_eq_map (env : FontEnv) (l : List String) :
    FontFiles._iter_loop env l =
      l.map (fun p =>
        (((env.font_at p).family_name, (env.font_at p).is_bold,
          (env.font_at p).is_italic), p)) := by
  induction l with
  | nil => rfl
  | cons x xs ih => simp [FontFiles._iter_loop, ih]

/-- Claim C5: the BaseShape geometry properties left, top, width and
height are getter/setter pairs over the backing element's x, y, cx and
cy attributes — each getter returns the attribute value, each setter
stores the assigned value into that attribute, and reading after
assigning yields the assigned value. -/
theorem shape_geometry_get_set (s : BaseShape) (v : Int) :
    (s.height = s._element.attrs "cy" ∧ s.left = s._element.attrs "x" ∧
     s.top = s._element.attrs "y" ∧ s.width = s._element.attrs "cx")
    ∧ ((s.set_height v)._element.attrs "cy" = v ∧ (s.set_left v)._element.attrs "x" = v ∧
       (s.set_top v)._element.attrs "y" = v ∧ (s.set_width v)._element.attrs "cx" = v)
    ∧ ((s.set_height v).height = v ∧ (s.set_left v).left = v ∧
       (s.set_top v).top = v ∧ (s.set_width v).width = v) := by
  refine ⟨⟨rfl, rfl, rfl, rfl⟩, ⟨?_, ?_, ?_, ?_⟩, ⟨?_, ?_, ?_, ?_⟩⟩ <;>
    simp [BaseShape.set_height, BaseShape.set_left, BaseShape.set_top, BaseShape.set_width,
      BaseShape.height, BaseShape.left, BaseShape.top, BaseShape.width,
      CT_Shape.set_cx, CT_Shape.set_cy, CT_Shape.set_x, CT_Shape.set_y,
      CT_Shape.cx, CT_Shape.cy, CT_Shape.x, CT_Shape.y]

/-- Claim C8: each geometry setter writes only its own backing
attribute — every attribute other than cy (resp. x, y, cx) is unchanged
by assigning height (resp. left, top, width). -/
theorem shape_geometry_frame (s : BaseShape) (v : Int) (a : String) :
    (a ≠ "cy" → (s.set_height v)._element.attrs a = s._element.attrs a)
    ∧ (a ≠ "x" → (s.set_left v)._element.attrs a = s._element.attrs a)
    ∧ (a ≠ "y" → (s.set_top v)._element.attrs a = s._element.attrs a)
    ∧ (a ≠ "cx" → (s.set_width v)._element.attrs a = s._element.attrs a) := by
  refine ⟨fun h => ?_, fun h => ?_, fun h => ?_, fun h => ?_⟩ <;>
    simp [BaseShape.set_height, BaseShape.set_left, BaseShape.set_top, BaseShape.set_width,
      CT_Shape.set_cx, CT_Shape.set_cy, CT_Shape.set_x, CT_Shape.set_y,
      Function.update_noteq h]

/-- Witness for claim C8 at a concrete shape, value and attribute. -/
theorem shape_geometry_frame_witness :
    (sampleShape.set_height 5)._element.attrs "foo" = sampleShape._element.attrs "foo"
    ∧ (sampleShape.set_left 5)._element.attrs "foo" = sampleShape._element.attrs "foo"
    ∧ (sampleShape.set_top 5)._element.attrs "foo" = sampleShape._element.attrs "foo"
    ∧ (sampleShape.set_width 5)._element.attrs "foo" = sampleShape._element.attrs "foo" :=
  ⟨(shape_geometry_frame sampleShape 5 "foo").1 (by decide),
   (shape_geometry_frame sampleShape 5 "foo").2.1 (by decide),
   (shape_geometry_frame sampleShape 5 "foo").2.2.1 (by decide),
   (shape_geometry_frame sampleShape 5 "foo").2.2.2 (by decide)⟩

/-- Claim C10: validate_int returns normally on every int (including 0
and negatives, covered by the universal over Int) and raises TypeError
on a str, on None and on a float. -/
theorem validate_int_spec :
    (∀ n : Int, BaseSimpleType.validate_int (PyValue.int n) = Except.ok ())
    ∧ (∀ s : String, BaseSimpleType.validate_int (PyValue.str s) = Except.error PyErr.typeError)
    ∧ BaseSimpleType.validate_int PyValue.none = Except.error PyErr.typeError
    ∧ (∀ t : String, BaseSimpleType.validate_int (PyValue.float t) = Except.error PyErr.typeError) :=
  ⟨fun _ => rfl, fun _ => rfl, rfl, fun _ => rfl⟩

/-- Claim C2: _font_directories is platform-conditional — on darwin it
returns exactly the _os_x_font_directories list, on win32 exactly the
_windows_font_directories list. -/
theorem font_directories_platform_conditional (env : FontEnv) :
    (env.platform = "darwin" →
      FontFiles._font_directories env = Except.ok (FontFiles._os_x_font_directories env))
    ∧ (env.platform = "win32" →
      FontFiles._font_directories env = Except.ok (FontFiles._windows_font_directories env)) := by
  constructor <;> intro h <;> simp [FontFiles._font_directories, h]

/-- Witness for claim C2 on concrete darwin and win32 environments. -/
theorem font_directories_platform_conditional_witness :
    FontFiles._font_directories sampleEnvDarwin =
      Except.ok (FontFiles._os_x_font_directories sampleEnvDarwin)
    ∧ FontFiles._font_directories sampleEnvWin =
      Except.ok (FontFiles._windows_font_directories sampleEnvWin) :=
  ⟨(font_directories_platform_conditional sampleEnvDarwin).1 rfl,
   (font_directories_platform_conditional sampleEnvWin).2 rfl⟩

/-- Claim C6: _os_x_font_directories returns exactly the three fixed
folders followed by HOME joined with Library/Fonts and HOME joined with
.fonts, HOME being read from the process environment. -/
theorem os_x_font_directories_spec (env : FontEnv) (home : String)
    (h : env.home = some home) :
    FontFiles._os_x_font_directories env =
      ["/Library/Fonts", "/Network/Library/Fonts", "/System/Library/Fonts",
       ospath_join home "Library/Fonts", ospath_join home ".fonts"] := by
  simp [FontFiles._os_x_font_directories, h]

/-- Witness for claim C6 with HOME = /Users/fbar. -/
theorem os_x_font_directories_spec_witness :
    FontFiles._os_x_font_directories sampleEnvDarwin =
      ["/Library/Fonts", "/Network/Library/Fonts", "/System/Library/Fonts",
       "/Users/fbar/Library/Fonts", "/Users/fbar/.fonts"] := by
  rw [os_x_font_directories_spec sampleEnvDarwin "/Users/fbar" rfl]
  rfl

/-- Claim C4: when the parsed table directory contains a name table,
_Font.family_name returns the family_name string of the entry under the
key name in the _tables mapping. -/
theorem font_family_name_spec (f : _Font) (nt : _NameTable)
    (h : dictLookup f._tables "name" = some nt) :
    f.family_name = Except.ok nt.family_name := by
  simp [_Font.family_name, h]

/-- Witness for claim C4 on a concrete font. -/
theorem font_family_name_spec_witness :
    sampleFont.family_name = Except.ok "Foobar" :=
  font_family_name_spec sampleFont ⟨"Foobar"⟩ rfl

/-- Claim C7: _Font.open used as a context manager opens a _Stream on
the path exactly once (the underlying file is opened with mode rb),
yields a font to the body, and closes the stream exactly once when the
context exits, in that order. -/
theorem font_open_context_spec (path : String) :
    _Font.open_events path =
      [FileEvent.fopen path "rb", FileEvent.yield_font, FileEvent.fclose]
    ∧ (_Font.open_events path).count (FileEvent.fopen path "rb") = 1
    ∧ (_Font.open_events path).count FileEvent.fclose = 1 := by
  refine ⟨rfl, ?_, ?_⟩ <;>
    simp [_Font.open_events, _Stream.open_events, _Stream.close_events, List.count_cons]

/-- Claim C3: _iter_font_files_in pairs each candidate font file found
under the directory with the (family name, bold, italic) key read from
the font opened at that path. -/
theorem iter_font_files_in_spec (env : FontEnv) (directory : String) :
    FontFiles._iter_font_files_in env directory =
      (env.files_in directory).map (fun p =>
        (((env.font_at p).family_name, (env.font_at p).is_bold,
          (env.font_at p).is_italic), p)) := by
  simp [FontFiles._iter_font_files_in, iter_loop_eq_map]

/-- Claim C1: find returns the path the installed-fonts mapping holds at
(family, bold, italic), where the mapping collects, directory by
directory in _font_directories order, every pair yielded by
_iter_font_files_in. -/
theorem fontfiles_find_spec (env : FontEnv) (family : String) (bold italic : Bool)
    (path : String) (ds : List String)
    (hds : FontFiles._font_directories env = Except.ok ds)
    (hlook : dictLookup ((ds.map (FontFiles._iter_font_files_in env)).flatten)
      (family, bold, italic) = some path) :
    FontFiles.find env family bold italic = Except.ok path := by
  have hinst : FontFiles._installed_fonts env =
      Except.ok ((ds.map (FontFiles._iter_font_files_in env)).flatten) := by
    simp [FontFiles._installed_fonts, hds, foldl_append_eq_flatten]
  simp [FontFiles.find, hinst, hlook]

/-- Witness for claim C1 on the concrete darwin environment. -/
theorem fontfiles_find_spec_witness :
    FontFiles.find sampleEnvDarwin "Foobar" true false =
      Except.ok "/Library/Fonts/foobarb.ttf" :=
  fontfiles_find_spec sampleEnvDarwin "Foobar" true false "/Library/Fonts/foobarb.ttf"
    ["/Library/Fonts", "/Network/Library/Fonts", "/System/Library/Fonts",
     "/Users/fbar/Library/Fonts", "/Users/fbar/.fonts"] rfl rfl

theorem natDigitsRevGo_ne_nil (fuel n : Nat) : natDigitsRevGo fuel n ≠ [] := by
  cases fuel with
  | zero => simp [natDigitsRevGo]
  | succ f => simp only [natDigitsRevGo]; split <;> simp

theorem natDigitsRevGo_lt (fuel n : Nat) (h : n ≤ fuel) :
    ∀ d ∈ natDigitsRevGo fuel n, d < 10 := by
  induction fuel generalizing n with
  | zero =>
    intro d hd
    have hn : n = 0 := by omega
    subst hn
    simp [natDigitsRevGo] at hd
    omega
  | succ f ih =>
    intro d hd
    simp only [natDigitsRevGo] at hd
    by_cases h10 : n < 10
    · rw [if_pos h10] at hd
      simp at hd
      omega
    · rw [if_neg h10] at hd
      rcases List.mem_cons.mp hd with h1 | h2
      · subst h1; omega
      · exact ih (n / 10) (by omega) d h2

theorem natDigitsRevGo_val (fuel n : Nat) (h : n ≤ fuel) :
    decimalVal ((natDigitsRevGo fuel n).reverse) = n := by
  induction fuel generalizing n with
  | zero =>
    have hn : n = 0 := by omega
    subst hn
    rfl
  | succ f ih =>
    by_cases h10 : n < 10
    · simp [natDigitsRevGo, if_pos h10, decimalVal]
    · simp only [natDigitsRevGo, if_neg h10, List.reverse_cons]
      unfold decimalVal
      rw [List.foldl_append]
      simp only [List.foldl_cons, List.foldl_nil]
      have hv := ih (n / 10) (by omega)
      unfold decimalVal at hv
      rw [hv]
      omega

theorem natToDecimal_ne_nil (n : Nat) : natToDecimal n ≠ [] := by
  simpa [natToDecimal, natDigitsRev] using natDigitsRevGo_ne_nil n n

theorem charOfDigit_isDigit : ∀ d : Nat, d < 10 → (charOfDigit d).isDigit = true := by
  decide

theorem digitToVal_charOfDigit : ∀ d : Nat, d < 10 → digitToVal (charOfDigit d) = d := by
  decide

theorem natToDecimal_isDigit (n : Nat) : ∀ c ∈ natToDecimal n, c.isDigit = true := by
  intro c hc
  simp only [natToDecimal, natDigitsRev, List.mem_map, List.mem_reverse] at hc
  obtain ⟨d, hd, rfl⟩ := hc
  exact charOfDigit_isDigit d (natDigitsRevGo_lt n n le_rfl d hd)

theorem foldl_parse_map (ds : List Nat) (a : Nat) (h : ∀ d ∈ ds, d < 10) :
    (ds.map charOfDigit).foldl (fun a c => 10 * a + digitToVal c) a
      = ds.foldl (fun a d => 10 * a + d) a := by
  induction ds generalizing a with
  | nil => rfl
  | cons d ds ih =>
    simp only [List.map_cons, List.foldl_cons]
    rw [digitToVal_charOfDigit d (h d (List.mem_cons_self _ _))]
    exact ih _ (fun x hx => h x (List.mem_cons_of_mem _ hx))

theorem parseUnsigned_natToDecimal (m : Nat) : parseUnsigned (natToDecimal m) = Except.ok m := by
  unfold parseUnsigned
  rw [if_neg (natToDecimal_ne_nil m)]
  have hall : (natToDecimal m).all Char.isDigit = true := by
    rw [List.all_eq_true]
    exact natToDecimal_isDigit m
  rw [if_pos hall]
  congr 1
  unfold parseDigitsVal natToDecimal natDigitsRev
  rw [foldl_parse_map _ _
    (fun d hd => natDigitsRevGo_lt m m le_rfl d (List.mem_reverse.mp hd))]
  exact natDigitsRevGo_val m m le_rfl

theorem isDigit_ne_dash {c : Char} (h : c.isDigit = true) : c ≠ '-' := by
  rintro rfl
  exact absurd h (by decide)

theorem isDigit_ne_plus {c : Char} (h : c.isDigit = true) : c ≠ '+' := by
  rintro rfl
  exact absurd h (by decide)

theorem convert_roundtrip (n : Int) :
    BaseIntType.convert_from_xml (BaseIntType.convert_to_xml n) = Except.ok n := by
  cases n with
  | ofNat m =>
    have hneg : ¬((Int.ofNat m) < 0) := by
      show ¬((m : Int) < 0)
      omega
    unfold BaseIntType.convert_to_xml
    rw [if_neg hneg]
    have habs : (Int.ofNat m).natAbs = m := rfl
    rw [habs]
    obtain ⟨c, rest, hcr⟩ := List.exists_cons_of_ne_nil (natToDecimal_ne_nil m)
    have hc : c.isDigit = true :=
      natToDecimal_isDigit m c (by rw [hcr]; exact List.mem_cons_self _ _)
    rw [hcr]
    simp only [BaseIntType.convert_from_xml]
    rw [if_neg (isDigit_ne_dash hc), if_neg (isDigit_ne_plus hc), ← hcr,
      parseUnsigned_natToDecimal]
    rfl
  | negSucc m =>
    have hneg : (Int.negSucc m) < 0 := Int.negSucc_lt_zero m
    unfold BaseIntType.convert_to_xml
    rw [if_pos hneg]
    have habs : (Int.negSucc m).natAbs = m + 1 := rfl
    rw [habs]
    have hstep : BaseIntType.convert_from_xml ⟨'-' :: natToDecimal (m + 1)⟩ =
        (parseUnsigned (natToDecimal (m + 1))).map (fun k : Nat => -(k : Int)) := by
      simp [BaseIntType.convert_from_xml]
    rw [hstep, parseUnsigned_natToDecimal]
    show Except.ok (-((m + 1 : Nat) : Int)) = Except.ok (Int.negSucc m)
    congr 1

/-- Claim C9: convert_to_xml produces the decimal string of an int and
convert_from_xml parses it back, so the int-to-string-to-int composition
is the identity on Int; convert_from_xml also accepts the non-canonical
form -0042, whose reparse-then-print differs from it, so the reverse
composition is not the identity on strings. -/
theorem baseinttype_conversions_roundtrip :
    (∀ n : Int, BaseIntType.convert_from_xml (BaseIntType.convert_to_xml n) = Except.ok n)
    ∧ BaseIntType.convert_from_xml "-0042" = Except.ok (-42)
    ∧ BaseIntType.convert_to_xml (-42) = "-42"
    ∧ BaseIntType.convert_to_xml (-42) ≠ "-0042" := by
  refine ⟨convert_roundtrip, rfl, rfl, ?_⟩
  decide

end Pptx
